import Mathlib

/-!
Shallow embedding of src/wsfe.py (cega/recepy): the WSFE client for the AFIP
electronic-invoicing web service. Payload dictionaries are embedded as
association lists of string keys, remote transport and the ticket provider as
oracles, and the runtime effects (soap calls, file writes, raised exceptions)
as explicit fields of a result record.
-/

set_option autoImplicit false

namespace Recepy

/-- A Python value appearing in the request dictionaries of wsfe.py: either a
string scalar or a nested dictionary (insertion-ordered association list). -/
inductive JVal where
  | str : String → JVal
  | obj : List (String × JVal) → JVal

/-- A request payload: the top-level Python dict passed to soap_connect. -/
abbrev Payload := List (String × JVal)

/-- First value bound to a key in an association list, mirroring Python dict
lookup over an insertion-ordered literal. -/
def assocFind {α : Type} : List (String × α) → String → Option α
  | [], _ => none
  | (k, v) :: rest, key => if k = key then some v else assocFind rest key

/-- Python dict.update with a single key: replaces the binding when the key is
present, otherwise appends it at the end (insertion order). -/
def dictUpdate {α : Type} (l : List (String × α)) (key : String) (v : α) :
    List (String × α) :=
  if l.any (fun p => p.1 == key) then
    l.map (fun p => if p.1 == key then (key, v) else p)
  else
    l ++ [(key, v)]

/-- The methods dict of WSFE.__request_param (wsfe.py lines 105-116): the
parameter-operation catalog. -/
def paramMethods : List (String × String) :=
  [("comprobante", "FEParamGetTiposCbte"),
   ("concepto", "FEParamGetTiposConcepto"),
   ("documento", "FEParamGetTiposDoc"),
   ("iva", "FEParamGetTiposIva"),
   ("monedas", "FEParamGetTiposMonedas"),
   ("opcional", "FEParamGetTiposOpcional"),
   ("tributos", "FEParamGetTiposTributos"),
   ("puntos_venta", "FEParamGetPtosVenta"),
   ("cotizacion", "FEParamGetCotizacion"),
   ("tipos_paises", "FEParamGetTiposPaises")]

/-- The methods dict of WSFE.__request_fe (wsfe.py lines 161-170): the
invoicing-operation catalog. Note that the key "solicitar" is bound to the
empty string in the source. -/
def feMethods : List (String × String) :=
  [("solicitar", ""),
   ("consultar", "FECAEAConsultar"),
   ("informar_sin_movimiento", "FECAEASinMovimientoInformar"),
   ("consultar_sin_movimiento", "FECAEASinMovimientoConsultar"),
   ("informar_comprobantes", "FECAEARegInformativo"),
   ("ultimo_autorizado", "FECompUltimoAutorizado"),
   ("cantidad_registros", "FECompTotXRequest"),
   ("consultar_comprobante", "FECompConsultar")]

/-- Message of the SystemExit raised when the selected option is not in the
catalog (wsfe.py lines 120-121 and 174-175). -/
def unsupportedMsg : String :=
  "El parámetro no está soportado por el Web Service de Factura Electrónica"

/-- Message of the SystemExit raised when the FEDummy health check reports the
service unavailable (wsfe.py line 357). -/
def unavailableMsg : String :=
  "El servicio de AFIP no se encuentra disponible"

/-- A Python exception terminating the run: SystemExit with its message, or a
NameError on an unbound local name. -/
inductive PyError where
  | systemExit (msg : String)
  | nameError (name : String)

/-- The authentication triple held by a WSFE instance: self.token, self.sign
and self.cuit. -/
structure Auth where
  token : String
  sign : String
  cuit : String

/-- The Auth sub-dictionary built identically at wsfe.py lines 129-135 and
183-189. -/
def authBlock (a : Auth) : JVal :=
  .obj [("Token", .str a.token), ("Sign", .str a.sign), ("Cuit", .str a.cuit)]

/-- The params dict as first assigned in both request methods: only the Auth
block at the root. -/
def baseParams (a : Auth) : Payload :=
  [("Auth", authBlock a)]

/-- The payload sent by WSFE.__request_param: the Auth block, plus MonId set
from self.currency_id exactly when the option is cotizacion (lines 137-139). -/
def paramPayload (a : Auth) (option currencyId : String) : Payload :=
  if option = "cotizacion" then
    dictUpdate (baseParams a) "MonId" (.str currencyId)
  else
    baseParams a

/-- The empty-string placeholder used throughout the FECAESolicitar dict
literal. -/
def emptyStr : JVal := .str ""

/-- The CbtesAsoc sub-group of the FECAESolicitar dict literal
(wsfe.py lines 221-227). -/
def cbtesAsocTemplate : JVal :=
  .obj [("CbteAsoc", .obj [("Tipo", emptyStr), ("PtoVta", emptyStr),
                           ("Nro", emptyStr)])]

/-- The Tributos sub-group of the FECAESolicitar dict literal
(wsfe.py lines 228-236). -/
def tributosTemplate : JVal :=
  .obj [("Tributo", .obj [("Id", emptyStr), ("Desc", emptyStr),
                          ("BaseImp", emptyStr), ("Alic", emptyStr),
                          ("Importe", emptyStr)])]

/-- The Iva sub-group of the FECAESolicitar dict literal
(wsfe.py lines 237-243). -/
def ivaTemplate : JVal :=
  .obj [("AlicIva", .obj [("Id", emptyStr), ("BaseImp", emptyStr),
                          ("Importe", emptyStr)])]

/-- The Opcionales sub-group of the FECAESolicitar dict literal
(wsfe.py lines 244-249). -/
def opcionalesTemplate : JVal :=
  .obj [("Opcional", .obj [("Id", emptyStr), ("Valor", emptyStr)])]

/-- The field list of the FECAEDetRequest dict literal of __request_fe
(wsfe.py lines 203-250): every scalar field is a hard-coded empty string and
all four optional sub-groups are unconditionally present. -/
def feCAEDetFields : List (String × JVal) :=
  [("Concepto", emptyStr), ("DocTipo", emptyStr), ("DocNro", emptyStr),
   ("CbteDesde", emptyStr), ("CbteHasta", emptyStr), ("CbteFch", emptyStr),
   ("ImpTotal", emptyStr), ("ImpTotConc", emptyStr), ("ImpNeto", emptyStr),
   ("ImpOpEx", emptyStr), ("ImpTrib", emptyStr), ("ImpIVA", emptyStr),
   ("FchServDesde", emptyStr), ("FchServHasta", emptyStr),
   ("FchVtoPago", emptyStr), ("MonId", emptyStr), ("MonCotiz", emptyStr),
   ("CbtesAsoc", cbtesAsocTemplate), ("Tributos", tributosTemplate),
   ("Iva", ivaTemplate), ("Opcionales", opcionalesTemplate)]

/-- The extra dict the source would bind for req_type FECAESolicitar
(wsfe.py lines 195-253): a constant literal that never consults caller input. -/
def feCAESolicitarExtra : Payload :=
  [("FeCAEReq",
    .obj [("FeCabReq", .obj [("CantReg", emptyStr), ("PtoVta", emptyStr),
                             ("CbteTipo", emptyStr)]),
          ("FeDetReq", .obj [("FECAEDetRequest", .obj feCAEDetFields)])])]

/-- Outcome of one soap_connect call: a structured response, or a zeep Fault
carrying an error code and message. -/
inductive SoapResult where
  | ok (resp : JVal)
  | fault (code message : String)

/-- The remote transport collaborator: a function from remote method name and
payload to the call outcome. -/
abbrev Transport := String → Payload → SoapResult

/-- The call data written by the with-open block of __request_param: the
arguments of json.dumps(response, indent=2, ensure_ascii=False). -/
structure JsonText where
  indent : Nat
  ensureAscii : Bool
  resp : JVal

/-- The observable outcome of one request-method run: the exception raised (if
any), the output path set by set_output_path, the soap_connect invocations
performed for the selected operation, and the file writes performed. -/
structure RunResult where
  err : Option PyError
  output : Option String
  soapCalls : List (String × Payload)
  writes : List (String × JsonText)

/-- State of a WSFE instance (wsfe.py lines 82-97 plus the token and sign
attributes assigned by main at line 389). Attributes that Python would leave
unset on a given path are carried as the empty string; no modelled path reads
them while unset. -/
structure WSFE where
  cuit : String
  request : String
  option : String
  currency_id : String
  voucher_type : String
  token : String
  sign : String

/-- The configuration dict fields WSFE.__init__ reads. config.comprobante is
the truthiness-tested entry: some op when an invoicing operation was selected,
none otherwise. -/
structure Config where
  comprobante : Option String
  parametro : String
  id : String
  tipo : String

/-- WSFE.__init__ (wsfe.py lines 82-97): selects the request family from the
truthiness of config.comprobante, the option from the corresponding config
entry, and sets currency_id (resp. voucher_type) only on the paths that read
them. -/
def mkWSFE (cfg : Config) (cuit : String) : WSFE :=
  let request := match cfg.comprobante with
    | some _ => "comprobante"
    | none => "parametro"
  let option := match cfg.comprobante with
    | some op => op
    | none => cfg.parametro
  { cuit := cuit
    request := request
    option := option
    currency_id :=
      if request = "parametro" ∧ option = "cotizacion" then cfg.id else ""
    voucher_type :=
      if request = "comprobante" ∧
          (option = "solicitar" ∨ option = "ultimo_autorizado" ∨
           option = "cantidad_registros" ∨ option = "consultar_comprobante")
      then cfg.tipo else ""
    token := ""
    sign := "" }

/-- The Auth triple a WSFE instance passes into its payloads. -/
def wsfeAuth (s : WSFE) : Auth :=
  ⟨s.token, s.sign, s.cuit⟩

/-- WSFE.__request_param (wsfe.py lines 99-154): resolve the option in the
parameter catalog (SystemExit when absent), set the output path to
option + ".json", build the Auth payload plus MonId for cotizacion, call
soap_connect (a Fault becomes SystemExit with the formatted code and message),
and on success write the response as json.dumps(..., indent=2,
ensure_ascii=False) to the output path. -/
def requestParam (s : WSFE) (soap : Transport) : RunResult :=
  match assocFind paramMethods s.option with
  | none =>
      { err := some (.systemExit unsupportedMsg), output := none,
        soapCalls := [], writes := [] }
  | some method =>
      let outPath := s.option ++ ".json"
      let params := paramPayload (wsfeAuth s) s.option s.currency_id
      match soap method params with
      | .fault c m =>
          { err := some (.systemExit ("Error: " ++ c ++ " " ++ m)),
            output := some outPath, soapCalls := [(method, params)],
            writes := [] }
      | .ok resp =>
          { err := none, output := some outPath,
            soapCalls := [(method, params)],
            writes := [(outPath, ⟨2, false, resp⟩)] }

/-- WSFE.__request_fe (wsfe.py lines 156-348): resolve the option in the
invoicing catalog (SystemExit when absent), set the output path, build the
Auth params dict — and then evaluate the never-bound local req_type at line
194, which raises NameError before any payload assembly, soap call or write. -/
def requestFe (s : WSFE) (_soap : Transport) : RunResult :=
  match assocFind feMethods s.option with
  | none =>
      { err := some (.systemExit unsupportedMsg), output := none,
        soapCalls := [], writes := [] }
  | some _method =>
      let outPath := s.option ++ ".json"
      let _params := baseParams (wsfeAuth s)
      { err := some (.nameError "req_type"), output := some outPath,
        soapCalls := [], writes := [] }

/-- WSFE.get_request (wsfe.py lines 350-362): run the FEDummy health check
first (a truthy result raises SystemExit with the unavailable message), then
dispatch on self.request to the parameter or invoicing request method. -/
def getRequest (s : WSFE) (dummyFails : Bool) (soap : Transport) : RunResult :=
  if dummyFails then
    { err := some (.systemExit unavailableMsg), output := none,
      soapCalls := [], writes := [] }
  else if s.request = "parametro" then
    requestParam s soap
  else if s.request = "comprobante" then
    requestFe s soap
  else
    { err := none, output := none, soapCalls := [], writes := [] }

/-- An externally observable event of one main() invocation. -/
inductive MainEvent where
  | ticketProviderCall
  | healthCheck (failed : Bool)
  | opCall (method : String)

/-- The outcome of main(): how many times the ticket provider (WSAA) was
invoked, the ordered event trace, and the result of get_request. -/
structure MainResult where
  providerCalls : Nat
  events : List MainEvent
  run : RunResult

/-- main (wsfe.py lines 365-395): build the WSFE instance, then obtain the
ticket from WSAA (line 389) — one ticket-provider invocation — and only then
call get_request (line 392), whose first step is the FEDummy health check. -/
def mainRun (cfg : Config) (cuit : String) (ticket : String × String)
    (dummyFails : Bool) (soap : Transport) : MainResult :=
  let voucher := mkWSFE cfg cuit
  let voucher := { voucher with token := ticket.1, sign := ticket.2 }
  let run := getRequest voucher dummyFails soap
  { providerCalls := 1
    events := MainEvent.ticketProviderCall :: MainEvent.healthCheck dummyFails
                :: run.soapCalls.map (fun c => MainEvent.opCall c.1)
    run := run }

/-- Writing a file with open(path, "w"): replaces the content at an existing
path, otherwise creates the entry. -/
def fsWrite (fs : List (String × JsonText)) (path : String) (c : JsonText) :
    List (String × JsonText) :=
  if fs.any (fun p => p.1 == path) then
    fs.map (fun p => if p.1 == path then (path, c) else p)
  else
    fs ++ [(path, c)]

/-- An authentication ticket as described by the spec data model: token,
signature and expiration instant. -/
structure Ticket where
  token : String
  sign : String
  expiration : Nat

/-- The cached-ticket state of the Ticket Store. -/
structure TicketStore where
  cached : Option Ticket

/-- Modelled from the spec: wsaa.WSAA.get_ticket (the Ticket Store) is not
under src/. Returns the cached ticket when now is strictly before its
expiration; otherwise calls the Ticket Provider synchronously, stores the new
ticket and returns it. The third component counts Ticket Provider
invocations made by this call. -/
def storeGetTicket (provider : Nat → Ticket) (now : Nat) (st : TicketStore) :
    Ticket × TicketStore × Nat :=
  match st.cached with
  | some t =>
      if now < t.expiration then (t, st, 0)
      else
        let fresh := provider now
        (fresh, ⟨some fresh⟩, 1)
  | none =>
      let fresh := provider now
      (fresh, ⟨some fresh⟩, 1)

/-- A transport oracle that always succeeds with an empty object. -/
def soapOkNull : Transport := fun _ _ => .ok (.obj [])

/-- A transport oracle that always raises the Fault of spec scenario D. -/
def soapFault600 : Transport := fun _ _ => .fault "600" "CUIT inválido"

/-- A concrete parameter-mode WSFE state for the iva operation. -/
def wIva : WSFE :=
  { cuit := "20111111112", request := "parametro", option := "iva",
    currency_id := "", voucher_type := "", token := "tk", sign := "sg" }

/-- A concrete WSFE state for the unsupported operation name foo. -/
def wFoo : WSFE :=
  { cuit := "20111111112", request := "parametro", option := "foo",
    currency_id := "", voucher_type := "", token := "tk", sign := "sg" }

/-- A concrete invoicing-mode WSFE state for the consultar operation. -/
def wConsultar : WSFE :=
  { cuit := "20111111112", request := "comprobante", option := "consultar",
    currency_id := "", voucher_type := "", token := "tk", sign := "sg" }

/-- A concrete invoicing-mode WSFE state for the solicitar operation. -/
def wSolicitar : WSFE :=
  { cuit := "20111111112", request := "comprobante", option := "solicitar",
    currency_id := "", voucher_type := "1", token := "tk", sign := "sg" }

/-- A concrete invoicing-mode WSFE state with the unsupported option foo. -/
def wFooFe : WSFE :=
  { cuit := "20111111112", request := "comprobante", option := "foo",
    currency_id := "", voucher_type := "", token := "tk", sign := "sg" }

/-- A concrete parameter-mode configuration selecting cotizacion with
currency id DOL. -/
def cfgCotizacion : Config :=
  { comprobante := none, parametro := "cotizacion", id := "DOL", tipo := "" }

/-- A concrete invoicing-mode configuration selecting consultar. -/
def cfgConsultar : Config :=
  { comprobante := some "consultar", parametro := "", id := "", tipo := "1" }

/-- Replacing the binding of a key that occurs in an association list makes
lookup of that key return the new value. -/
theorem assocFind_map_set {α : Type} (path : String) (c : α) :
    ∀ fs : List (String × α),
      fs.any (fun p => p.1 == path) = true →
      assocFind (fs.map (fun p => if p.1 == path then (path, c) else p)) path
        = some c := by
  intro fs
  induction fs with
  | nil => intro h; simp at h
  | cons hd tl ih =>
    intro h
    rw [List.map_cons]
    by_cases hk : hd.1 = path
    · have hbeq : (hd.1 == path) = true := beq_iff_eq.mpr hk
      rw [hbeq, if_pos rfl]
      simp [assocFind]
    · have hbeq : (hd.1 == path) = false := beq_eq_false_iff_ne.mpr hk
      rw [hbeq, if_neg Bool.false_ne_true]
      simp only [assocFind, if_neg hk]
      apply ih
      simp only [List.any_cons, hbeq, Bool.false_or] at h
      exact h

/-- Appending a binding for a key absent from an association list makes lookup
of that key return the appended value. -/
theorem assocFind_append_new {α : Type} (path : String) (c : α) :
    ∀ fs : List (String × α),
      fs.any (fun p => p.1 == path) = false →
      assocFind (fs ++ [(path, c)]) path = some c := by
  intro fs
  induction fs with
  | nil => intro _; simp [assocFind]
  | cons hd tl ih =>
    intro h
    simp only [List.any_cons, Bool.or_eq_false_iff] at h
    have hk : hd.1 ≠ path := by
      intro he
      rw [he] at h
      simp at h
    simpa [assocFind, hk] using ih h.2

/-- Writing to a path with fsWrite makes lookup at that path return the
written content, whether or not the path already existed. -/
theorem assocFind_fsWrite (fs : List (String × JsonText)) (path : String)
    (c : JsonText) :
    assocFind (fsWrite fs path c) path = some c := by
  unfold fsWrite
  cases hb : fs.any (fun p => p.1 == path) with
  | true =>
      rw [if_pos rfl]
      exact assocFind_map_set path c fs hb
  | false =>
      rw [if_neg (by simp)]
      exact assocFind_append_new path c fs hb

/-- Reduction of requestParam when the option resolves in the catalog and the
remote call succeeds. -/
theorem requestParam_ok (s : WSFE) (soap : Transport) (m : String) (resp : JVal)
    (h1 : assocFind paramMethods s.option = some m)
    (h2 : soap m (paramPayload (wsfeAuth s) s.option s.currency_id)
            = SoapResult.ok resp) :
    requestParam s soap =
      { err := none, output := some (s.option ++ ".json"),
        soapCalls := [(m, paramPayload (wsfeAuth s) s.option s.currency_id)],
        writes := [(s.option ++ ".json", ⟨2, false, resp⟩)] } := by
  unfold requestParam
  rw [h1]
  dsimp only
  rw [h2]

/-- Reduction of requestParam when the option resolves in the catalog and the
remote call raises a Fault. -/
theorem requestParam_fault (s : WSFE) (soap : Transport) (m c msg : String)
    (h1 : assocFind paramMethods s.option = some m)
    (h2 : soap m (paramPayload (wsfeAuth s) s.option s.currency_id)
            = SoapResult.fault c msg) :
    requestParam s soap =
      { err := some (.systemExit ("Error: " ++ c ++ " " ++ msg)),
        output := some (s.option ++ ".json"),
        soapCalls := [(m, paramPayload (wsfeAuth s) s.option s.currency_id)],
        writes := [] } := by
  unfold requestParam
  rw [h1]
  dsimp only
  rw [h2]

/-- requestFe never invokes the transport and never writes a file, whatever
the option. -/
theorem requestFe_inert (s : WSFE) (soap : Transport) :
    (requestFe s soap).soapCalls = [] ∧ (requestFe s soap).writes = [] := by
  unfold requestFe
  cases assocFind feMethods s.option <;> exact ⟨rfl, rfl⟩

/-- Claim C1, counterexample: running main with a health check that reports
the service non-operational aborts with the service-unavailable SystemExit,
yet the Ticket Provider has been invoked once, not zero times — the trace
shows the ticket acquisition happening before the health check. -/
theorem claim_C1_counterexample :
    (mainRun cfgConsultar "20111111112" ("tk", "sg") true soapOkNull).run.err
      = some (PyError.systemExit unavailableMsg) ∧
    (mainRun cfgConsultar "20111111112" ("tk", "sg") true
        soapOkNull).providerCalls = 1 ∧
    (mainRun cfgConsultar "20111111112" ("tk", "sg") true soapOkNull).events
      = [MainEvent.ticketProviderCall, MainEvent.healthCheck true] :=
  ⟨rfl, rfl, rfl⟩

/-- Claim C1, amended: within get_request the health check runs before any
request method, so a failing health check aborts with ServiceUnavailableError
before any operation soap call or file write; but main acquires the ticket
before calling get_request, so the Ticket Provider has then been invoked
exactly once, not zero times. -/
theorem claim_C1_amended (cfg : Config) (cuit : String)
    (ticket : String × String) (dummyFails : Bool) (soap : Transport)
    (h : dummyFails = true) :
    (mainRun cfg cuit ticket dummyFails soap).run.err
      = some (PyError.systemExit unavailableMsg) ∧
    (mainRun cfg cuit ticket dummyFails soap).providerCalls = 1 ∧
    (mainRun cfg cuit ticket dummyFails soap).run.soapCalls = [] ∧
    (mainRun cfg cuit ticket dummyFails soap).run.writes = [] ∧
    (mainRun cfg cuit ticket dummyFails soap).events
      = [MainEvent.ticketProviderCall, MainEvent.healthCheck true] := by
  subst h
  exact ⟨rfl, rfl, rfl, rfl, rfl⟩

/-- Claim C1, witness for the amended theorem at a concrete run. -/
theorem claim_C1_witness :
    (mainRun cfgCotizacion "20111111112" ("tk", "sg") true
        soapOkNull).providerCalls = 1 ∧
    (mainRun cfgCotizacion "20111111112" ("tk", "sg") true soapOkNull).run.err
      = some (PyError.systemExit unavailableMsg) :=
  ⟨(claim_C1_amended cfgCotizacion "20111111112" ("tk", "sg") true
      soapOkNull rfl).2.1,
   (claim_C1_amended cfgCotizacion "20111111112" ("tk", "sg") true
      soapOkNull rfl).1⟩

/-- Claim C2, counterexample: in the solicit-CAE detail template the Tributos
sub-group is present (bound to an empty-string placeholder) even though the
code accepts no tax-item input at all; and executing the invoicing request for
solicitar raises NameError before any payload is assembled. -/
theorem claim_C2_counterexample :
    assocFind feCAEDetFields "Tributos" = some tributosTemplate ∧
    (requestFe wSolicitar soapOkNull).err
      = some (PyError.nameError "req_type") :=
  ⟨rfl, rfl⟩

/-- Claim C2, amended: the solicit-CAE payload template of __request_fe
unconditionally contains all four optional sub-groups (CbtesAsoc, Tributos,
Iva, Opcionales) as empty-string placeholders and never consults caller
input; moreover, for every catalogued invoicing operation the request method
raises NameError on the unbound local req_type before the payload is
assembled, so no payload is ever sent. -/
theorem claim_C2_amended (s : WSFE) (soap : Transport) (m : String)
    (h : assocFind feMethods s.option = some m) :
    assocFind feCAEDetFields "CbtesAsoc" = some cbtesAsocTemplate ∧
    assocFind feCAEDetFields "Tributos" = some tributosTemplate ∧
    assocFind feCAEDetFields "Iva" = some ivaTemplate ∧
    assocFind feCAEDetFields "Opcionales" = some opcionalesTemplate ∧
    (requestFe s soap).err = some (PyError.nameError "req_type") ∧
    (requestFe s soap).soapCalls = [] := by
  refine ⟨rfl, rfl, rfl, rfl, ?_, ?_⟩ <;>
    · unfold requestFe
      rw [h]

/-- Claim C2, witness for the amended theorem at the solicitar operation. -/
theorem claim_C2_witness :
    (requestFe wSolicitar soapFault600).err
      = some (PyError.nameError "req_type") ∧
    (requestFe wSolicitar soapFault600).soapCalls = [] :=
  ⟨(claim_C2_amended wSolicitar soapFault600 "" rfl).2.2.2.2.1,
   (claim_C2_amended wSolicitar soapFault600 "" rfl).2.2.2.2.2⟩

/-- Claim C3: evaluating the embedded __request_fe at the catalogued
invoicing operation consultar (query-CAEA) shows the run raising NameError on
the unbound local req_type before the remote invocation — an error outside
the spec taxonomy, with the transport never invoked. -/
theorem claim_C3_bug :
    assocFind feMethods wConsultar.option = some "FECAEAConsultar" ∧
    (requestFe wConsultar soapOkNull).err
      = some (PyError.nameError "req_type") ∧
    (requestFe wConsultar soapOkNull).soapCalls = [] :=
  ⟨rfl, rfl, rfl⟩

/-- Claim C4, counterexample: in the invoicing catalog the key solicitar is
bound to the empty string, and the catalog has eight entries, not the nine
invoicing operations the claim requires. -/
theorem claim_C4_counterexample :
    assocFind feMethods "solicitar" = some "" ∧ feMethods.length = 8 :=
  ⟨rfl, rfl⟩

/-- Claim C4, amended: the parameter catalog is a fixed map with ten
operations, pairwise distinct keys and pairwise distinct non-empty method
names; the invoicing catalog has only eight entries (solicit-CAE and
solicit-CAEA are not separately represented) with pairwise distinct keys, and
every entry except solicitar (which is bound to the empty string) carries a
non-empty method name. -/
theorem claim_C4_amended :
    paramMethods.length = 10 ∧
    (paramMethods.map Prod.fst).Nodup ∧
    (paramMethods.map Prod.snd).Nodup ∧
    (paramMethods.all fun e => !(e.2 == "")) = true ∧
    feMethods.length = 8 ∧
    (feMethods.map Prod.fst).Nodup ∧
    (feMethods.map Prod.snd).Nodup ∧
    assocFind feMethods "solicitar" = some "" ∧
    (feMethods.all fun e => e.1 == "solicitar" || !(e.2 == "")) = true := by
  refine ⟨rfl, ?_, ?_, rfl, rfl, ?_, ?_, rfl, rfl⟩ <;> decide

/-- Claim C5: for any catalogued parameter operation whose remote call
succeeds, the run finishes without error, the output path is the operation
key with the .json extension, the write carries
json.dumps(response, indent=2, ensure_ascii=False), re-writing the same path
overwrites the previous content; invoicing operations never perform a file
write at all. -/
theorem claim_C5 (s : WSFE) (soap : Transport) (m : String) (resp : JVal)
    (h1 : assocFind paramMethods s.option = some m)
    (h2 : soap m (paramPayload (wsfeAuth s) s.option s.currency_id)
            = SoapResult.ok resp) :
    (requestParam s soap).err = none ∧
    (requestParam s soap).output = some (s.option ++ ".json") ∧
    (requestParam s soap).writes
      = [(s.option ++ ".json", ⟨2, false, resp⟩)] ∧
    (∀ fs c, assocFind (fsWrite fs (s.option ++ ".json") c)
        (s.option ++ ".json") = some c) ∧
    (∀ s2 soap2, (requestFe s2 soap2).writes = []) := by
  rw [requestParam_ok s soap m resp h1 h2]
  exact ⟨rfl, rfl, rfl, fun fs c => assocFind_fsWrite fs _ c,
         fun s2 soap2 => (requestFe_inert s2 soap2).2⟩

/-- Claim C5, witness at the iva operation with an always-succeeding
transport. -/
theorem claim_C5_witness :
    (requestParam wIva soapOkNull).writes
      = [("iva" ++ ".json", ⟨2, false, JVal.obj []⟩)] ∧
    (requestParam wIva soapOkNull).err = none :=
  ⟨(claim_C5 wIva soapOkNull "FEParamGetTiposIva" (JVal.obj []) rfl
      rfl).2.2.1,
   (claim_C5 wIva soapOkNull "FEParamGetTiposIva" (JVal.obj []) rfl rfl).1⟩

/-- Claim C6: a remote Fault during a parameter-operation invocation
terminates the run with SystemExit whose message embeds the fault code and
message verbatim in the source format string, and no file write is performed;
the invoicing request method performs no soap call and no write at all, so no
fault there can be swallowed either. -/
theorem claim_C6 (s : WSFE) (soap : Transport) (m c msg : String)
    (h1 : assocFind paramMethods s.option = some m)
    (h2 : soap m (paramPayload (wsfeAuth s) s.option s.currency_id)
            = SoapResult.fault c msg) :
    (requestParam s soap).err
      = some (PyError.systemExit ("Error: " ++ c ++ " " ++ msg)) ∧
    (requestParam s soap).writes = [] ∧
    (∀ s2 soap2, (requestFe s2 soap2).soapCalls = [] ∧
        (requestFe s2 soap2).writes = []) := by
  rw [requestParam_fault s soap m c msg h1 h2]
  exact ⟨rfl, rfl, fun s2 soap2 => requestFe_inert s2 soap2⟩

/-- Claim C6, witness at spec scenario D: fault code 600 with message CUIT
inválido surfaces as the SystemExit message Error: 600 CUIT inválido and no
write happens. -/
theorem claim_C6_witness :
    (requestParam wIva soapFault600).err
      = some (PyError.systemExit ("Error: " ++ "600" ++ " " ++ "CUIT inválido")) ∧
    (requestParam wIva soapFault600).writes = [] :=
  ⟨(claim_C6 wIva soapFault600 "FEParamGetTiposIva" "600" "CUIT inválido"
      rfl rfl).1,
   (claim_C6 wIva soapFault600 "FEParamGetTiposIva" "600" "CUIT inválido"
      rfl rfl).2.1⟩

/-- Claim C7: an operation name absent from the selected family catalog makes
the request method raise the unsupported-operation SystemExit with the
transport never invoked and no file written, in both the parameter and the
invoicing family. -/
theorem claim_C7 (s s2 : WSFE) (soap soap2 : Transport)
    (h1 : assocFind paramMethods s.option = none)
    (h2 : assocFind feMethods s2.option = none) :
    (requestParam s soap).err = some (PyError.systemExit unsupportedMsg) ∧
    (requestParam s soap).soapCalls = [] ∧
    (requestParam s soap).writes = [] ∧
    (requestFe s2 soap2).err = some (PyError.systemExit unsupportedMsg) ∧
    (requestFe s2 soap2).soapCalls = [] ∧
    (requestFe s2 soap2).writes = [] := by
  unfold requestParam requestFe
  rw [h1, h2]
  exact ⟨rfl, rfl, rfl, rfl, rfl, rfl⟩

/-- Claim C7, witness at the unsupported operation name foo in both
families. -/
theorem claim_C7_witness :
    (requestParam wFoo soapOkNull).err
      = some (PyError.systemExit unsupportedMsg) ∧
    (requestParam wFoo soapOkNull).soapCalls = [] ∧
    (requestFe wFooFe soapOkNull).err
      = some (PyError.systemExit unsupportedMsg) ∧
    (requestFe wFooFe soapOkNull).soapCalls = [] :=
  ⟨(claim_C7 wFoo wFooFe soapOkNull soapOkNull rfl rfl).1,
   (claim_C7 wFoo wFooFe soapOkNull soapOkNull rfl rfl).2.1,
   (claim_C7 wFoo wFooFe soapOkNull soapOkNull rfl rfl).2.2.2.1,
   (claim_C7 wFoo wFooFe soapOkNull soapOkNull rfl rfl).2.2.2.2.1⟩

/-- Claim C8: with a cached ticket expiring at T, a request at now < T
returns the cached ticket with zero Ticket Provider invocations; a request at
now >= T invokes the provider exactly once, and an immediately following
second request at the same instant invokes it zero further times (given the
fresh ticket is valid, i.e. expires after now). -/
theorem claim_C8 (provider : Nat → Ticket) (t : Ticket) (now : Nat)
    (st : TicketStore) (hst : st = ⟨some t⟩) :
    (now < t.expiration →
      storeGetTicket provider now st = (t, st, 0)) ∧
    (t.expiration ≤ now → now < (provider now).expiration →
      (storeGetTicket provider now st).2.2 = 1 ∧
      (storeGetTicket provider now
          ((storeGetTicket provider now st).2.1)).2.2 = 0) := by
  subst hst
  constructor
  · intro hlt
    simp [storeGetTicket, hlt]
  · intro hge hfresh
    have hnlt : ¬ now < t.expiration := Nat.not_lt.mpr hge
    constructor
    · simp [storeGetTicket, hnlt]
    · simp [storeGetTicket, hnlt, hfresh]

/-- Claim C8, witness: a concrete cached ticket expiring at 5 is served from
cache at instant 3; at instant 7 the provider is consulted exactly once
across two immediately successive requests. -/
theorem claim_C8_witness :
    storeGetTicket (fun _ => ⟨"t2", "s2", 10⟩) 3
        ⟨some ⟨"t1", "s1", 5⟩⟩ = (⟨"t1", "s1", 5⟩, ⟨some ⟨"t1", "s1", 5⟩⟩, 0) ∧
    (storeGetTicket (fun _ => ⟨"t2", "s2", 10⟩) 7
        ⟨some ⟨"t1", "s1", 5⟩⟩).2.2 = 1 ∧
    (storeGetTicket (fun _ => ⟨"t2", "s2", 10⟩) 7
        ((storeGetTicket (fun _ => ⟨"t2", "s2", 10⟩) 7
            ⟨some ⟨"t1", "s1", 5⟩⟩).2.1)).2.2 = 0 :=
  ⟨(claim_C8 (fun _ => ⟨"t2", "s2", 10⟩) ⟨"t1", "s1", 5⟩ 3
      ⟨some ⟨"t1", "s1", 5⟩⟩ rfl).1 (by decide),
   ((claim_C8 (fun _ => ⟨"t2", "s2", 10⟩) ⟨"t1", "s1", 5⟩ 7
      ⟨some ⟨"t1", "s1", 5⟩⟩ rfl).2 (by decide) (by decide)).1,
   ((claim_C8 (fun _ => ⟨"t2", "s2", 10⟩) ⟨"t1", "s1", 5⟩ 7
      ⟨some ⟨"t1", "s1", 5⟩⟩ rfl).2 (by decide) (by decide)).2⟩

/-- Claim C9: for every operation of either catalog the payload carries at
its root an Auth block built from exactly the three fields Token, Sign and
Cuit, identical in shape across operations: the parameter payload for any
option and the base params of the invoicing request method both bind Auth to
the same authBlock. -/
theorem claim_C9 (a : Auth) (option currencyId m : String)
    (_h : assocFind paramMethods option = some m ∨
          assocFind feMethods option = some m) :
    assocFind (paramPayload a option currencyId) "Auth" = some (authBlock a) ∧
    assocFind (baseParams a) "Auth" = some (authBlock a) ∧
    authBlock a = JVal.obj [("Token", JVal.str a.token),
                            ("Sign", JVal.str a.sign),
                            ("Cuit", JVal.str a.cuit)] := by
  refine ⟨?_, rfl, rfl⟩
  by_cases hop : option = "cotizacion"
  · subst hop
    rfl
  · unfold paramPayload
    rw [if_neg hop]
    rfl

/-- Claim C9, witness at the iva parameter operation and the consultar
invoicing operation with a concrete Auth triple. -/
theorem claim_C9_witness :
    assocFind (paramPayload ⟨"tk", "sg", "20111111112"⟩ "iva" "") "Auth"
      = some (authBlock ⟨"tk", "sg", "20111111112"⟩) ∧
    assocFind (paramPayload ⟨"tk", "sg", "20111111112"⟩ "consultar" "") "Auth"
      = some (authBlock ⟨"tk", "sg", "20111111112"⟩) :=
  ⟨(claim_C9 ⟨"tk", "sg", "20111111112"⟩ "iva" "" "FEParamGetTiposIva"
      (Or.inl rfl)).1,
   (claim_C9 ⟨"tk", "sg", "20111111112"⟩ "consultar" "" "FECAEAConsultar"
      (Or.inr rfl)).1⟩

/-- Claim C10: a parameter-mode configuration selecting cotizacion stores the
configured currency id on the instance; the cotizacion payload is exactly the
Auth block followed by MonId bound to that currency id (no detail records);
and for any other option the payload carries no MonId key. -/
theorem claim_C10 (cfg : Config) (cuit : String) (a : Auth)
    (option currencyId : String)
    (hmode : cfg.comprobante = none) (hop : cfg.parametro = "cotizacion")
    (hne : option ≠ "cotizacion") :
    (mkWSFE cfg cuit).currency_id = cfg.id ∧
    (mkWSFE cfg cuit).option = "cotizacion" ∧
    paramPayload a "cotizacion" cfg.id
      = [("Auth", authBlock a), ("MonId", JVal.str cfg.id)] ∧
    assocFind (paramPayload a option currencyId) "MonId" = none := by
  refine ⟨?_, ?_, rfl, ?_⟩
  · simp [mkWSFE, hmode, hop]
  · simp [mkWSFE, hmode, hop]
  · unfold paramPayload
    rw [if_neg hne]
    rfl

/-- Claim C10, witness at spec scenario A: cotizacion with currency id DOL
yields exactly Auth plus MonId DOL, while the iva operation has no MonId. -/
theorem claim_C10_witness :
    (mkWSFE cfgCotizacion "20111111112").currency_id = "DOL" ∧
    paramPayload ⟨"tk", "sg", "20111111112"⟩ "cotizacion" "DOL"
      = [("Auth", authBlock ⟨"tk", "sg", "20111111112"⟩),
         ("MonId", JVal.str "DOL")] ∧
    assocFind (paramPayload ⟨"tk", "sg", "20111111112"⟩ "iva" "") "MonId"
      = none :=
  ⟨(claim_C10 cfgCotizacion "20111111112" ⟨"tk", "sg", "20111111112"⟩ "iva" ""
      rfl rfl (by decide)).1,
   (claim_C10 cfgCotizacion "20111111112" ⟨"tk", "sg", "20111111112"⟩ "iva" ""
      rfl rfl (by decide)).2.2.1,
   (claim_C10 cfgCotizacion "20111111112" ⟨"tk", "sg", "20111111112"⟩ "iva" ""
      rfl rfl (by decide)).2.2.2⟩

end Recepy
